import Mathlib

/-!
Verification of the role-gated question-answering backend in `app/main.py`.

The embedding models, faithfully to the source:
  - the hardcoded credential table `users_db`;
  - `authenticate`, the HTTP Basic auth dependency;
  - the API handlers (`login`, `list_docs_by_role`, `test`, `chat_endpoint`),
    with the external collaborators `get_documents_by_role`, `load_vector_store`,
    `RetrievalQA.from_chain_type` and `qa.run` taken as parameters (they live in
    `app/services/...` and in third-party libraries, outside this core);
  - the Starlette first-match route table, including the `/static` mount and
    the two frontend fallback handlers;
  - the module-level startup check that aborts when the frontend build
    directory is missing.
-/

namespace RpcApp

/-- One value of the dummy user-role DB: `{"password": ..., "role": ...}`. -/
structure UserRecord where
  password : String
  role : String
deriving DecidableEq, Repr

/-- Credentials extracted from the HTTP Basic Authorization header. -/
structure HTTPBasicCredentials where
  username : String
  password : String
deriving DecidableEq, Repr

/-- An HTTPException as FastAPI serialises it: status code plus detail body. -/
structure HTTPError where
  status : Nat
  detail : String
deriving DecidableEq, Repr

/-- The identity dict returned by a successful `authenticate`. -/
structure AuthIdentity where
  username : String
  role : String
deriving DecidableEq, Repr

/-- The pydantic request body of `POST /api/chat`. -/
structure ChatRequest where
  message : String
deriving DecidableEq, Repr

/-- The success body of `POST /api/chat`. -/
structure ChatJSON where
  user : String
  role : String
  query : String
  response : String
deriving DecidableEq, Repr

/-- The dummy user-role DB from `app/main.py` (`users_db`), as an association
list keyed by username. -/
def users_db : List (String × UserRecord) :=
  [("Tony",    { password := "password123", role := "engineering" }),
   ("Bruce",   { password := "securepass",  role := "marketing" }),
   ("Sam",     { password := "financepass", role := "finance" }),
   ("Peter",   { password := "pete123",     role := "engineering" }),
   ("Sid",     { password := "sidpass123",  role := "marketing" }),
   ("Natasha", { password := "hrpass123",   role := "hr" })]

/-- Python `users_db.get(username)`. -/
def usersDbGet (username : String) : Option UserRecord :=
  (users_db.find? (fun p => p.1 == username)).map (fun p => p.2)

/-- The `authenticate` dependency of `app/main.py`:
looks the username up in `users_db`; when it is absent or the stored password
differs from the presented one, raises `HTTPException(401, "Invalid
credentials")`; otherwise returns `{"username": ..., "role": ...}`. -/
def authenticate (c : HTTPBasicCredentials) : Except HTTPError AuthIdentity :=
  match usersDbGet c.username with
  | none => Except.error { status := 401, detail := "Invalid credentials" }
  | some user =>
      if user.password ≠ c.password then
        Except.error { status := 401, detail := "Invalid credentials" }
      else
        Except.ok { username := c.username, role := user.role }

/-- Helper: `authenticate` succeeds exactly as the stored record dictates. -/
theorem authenticate_ok_of_valid (c : HTTPBasicCredentials) (u : UserRecord)
    (hu : usersDbGet c.username = some u) (hp : u.password = c.password) :
    authenticate c = Except.ok { username := c.username, role := u.role } := by
  unfold authenticate
  rw [hu]
  simp [hp]

/-- Helper: every error raised by `authenticate` is the one generic 401. -/
theorem authenticate_error_is_401 (c : HTTPBasicCredentials) (err : HTTPError)
    (h : authenticate c = Except.error err) :
    err = { status := 401, detail := "Invalid credentials" } := by
  unfold authenticate at h
  cases husr : usersDbGet c.username with
  | none =>
      rw [husr] at h
      exact (Except.error.inj h).symm
  | some u =>
      rw [husr] at h
      dsimp only at h
      by_cases hpw : u.password ≠ c.password
      · rw [if_pos hpw] at h
        exact (Except.error.inj h).symm
      · rw [if_neg hpw] at h
        cases h

/-- C1: for every request whose username is absent from `users_db`, or whose
username is present but whose password is not exactly the stored one,
`authenticate` rejects with status 401 and detail "Invalid credentials", and
the rejection is literally the same value in both cases. -/
theorem authenticate_rejects_invalid_credentials (c : HTTPBasicCredentials)
    (h : usersDbGet c.username = none ∨
         ∃ u, usersDbGet c.username = some u ∧ u.password ≠ c.password) :
    authenticate c = Except.error { status := 401, detail := "Invalid credentials" } := by
  unfold authenticate
  rcases h with h | ⟨u, hu, hp⟩
  · rw [h]
  · rw [hu]
    dsimp only
    rw [if_pos hp]

/-- Witness for C1: the unknown username "Eve" and Tony with a wrong password
are both rejected with the identical 401 response. -/
theorem authenticate_rejects_invalid_credentials_witness :
    (usersDbGet "Eve" = none) ∧
    (usersDbGet "Tony" = some { password := "password123", role := "engineering" } ∧
      ("password123" : String) ≠ "wrong") ∧
    authenticate { username := "Eve", password := "x" } =
      Except.error { status := 401, detail := "Invalid credentials" } ∧
    authenticate { username := "Tony", password := "wrong" } =
      Except.error { status := 401, detail := "Invalid credentials" } :=
  ⟨by decide, ⟨by decide, by decide⟩,
   authenticate_rejects_invalid_credentials { username := "Eve", password := "x" }
     (Or.inl (by decide)),
   authenticate_rejects_invalid_credentials { username := "Tony", password := "wrong" }
     (Or.inr ⟨{ password := "password123", role := "engineering" }, by decide, by decide⟩)⟩

/-- C4: for every username/password pair matching a stored record,
`authenticate` succeeds with `{username, role}` for the recorded role. -/
theorem authenticate_accepts_valid_pair (c : HTTPBasicCredentials) (u : UserRecord)
    (hu : usersDbGet c.username = some u) (hp : u.password = c.password) :
    authenticate c = Except.ok { username := c.username, role := u.role } :=
  authenticate_ok_of_valid c u hu hp

/-- Witness for C4: (Tony, password123) authenticates to role "engineering". -/
theorem authenticate_accepts_valid_pair_witness :
    usersDbGet "Tony" = some { password := "password123", role := "engineering" } ∧
    authenticate { username := "Tony", password := "password123" } =
      Except.ok { username := "Tony", role := "engineering" } :=
  ⟨by decide,
   authenticate_accepts_valid_pair { username := "Tony", password := "password123" }
     { password := "password123", role := "engineering" } (by decide) rfl⟩

/-- FastAPI resolution of the `Depends(security)` HTTP Basic dependency: a
request with no (or unusable) Authorization header is rejected 401 by the
`HTTPBasic` scheme itself before `authenticate` runs; otherwise the extracted
credentials are passed to `authenticate`. -/
def resolveAuth (creds : Option HTTPBasicCredentials) : Except HTTPError AuthIdentity :=
  match creds with
  | none => Except.error { status := 401, detail := "Not authenticated" }
  | some c => authenticate c

/-- The try-block of `chat_endpoint`: `load_vector_store(role=...)`, then
`RetrievalQA.from_chain_type(llm=llm, retriever=...)`, then
`qa.run(request.message)`. The three external collaborators are parameters;
each may fail with an arbitrary error message. -/
def runChatPipeline {R Q : Type} (load_vector_store : String → Except String R)
    (from_chain_type : R → Except String Q)
    (qa_run : Q → String → Except String String)
    (role message : String) : Except String String := do
  let retriever ← load_vector_store role
  let qa ← from_chain_type retriever
  qa_run qa message

/-- The `chat_endpoint` handler body of `app/main.py`: on any error raised
inside the try-block it responds `HTTPException(500, "Chat failed. Please try
again.")`; on success it returns `{user, role, query, response}`. -/
def chat_endpoint {R Q : Type} (load_vector_store : String → Except String R)
    (from_chain_type : R → Except String Q)
    (qa_run : Q → String → Except String String)
    (request : ChatRequest) (user : AuthIdentity) : Except HTTPError ChatJSON :=
  match runChatPipeline load_vector_store from_chain_type qa_run user.role request.message with
  | Except.error _ =>
      Except.error { status := 500, detail := "Chat failed. Please try again." }
  | Except.ok result =>
      Except.ok { user := user.username, role := user.role,
                  query := request.message, response := result }

/-- The protected API routes of `app/main.py` (the chat route carries its
parsed request body). -/
inductive ApiRoute
  | login
  | roleDocs
  | test
  | chat (request : ChatRequest)
deriving DecidableEq, Repr

/-- The JSON bodies the four protected handlers return. -/
inductive ApiResponse
  | loginResp (message role : String)
  | docsResp (docs : List String)
  | testResp (message role : String)
  | chatResp (body : ChatJSON)
deriving DecidableEq, Repr

/-- An invocation of an external collaborator, recorded with the role it was
scoped to: the Document Directory (`get_documents_by_role`) or the Answer
Generator pipeline (`load_vector_store` + RetrievalQA). -/
inductive ExtCall
  | documentDirectory (role : String)
  | answerGenerator (role : String) (message : String)
deriving DecidableEq, Repr

/-- The role an external call was scoped to. -/
def callRole : ExtCall → String
  | ExtCall.documentDirectory r => r
  | ExtCall.answerGenerator r _ => r

/-- Dispatch of an authenticated API request, mirroring `app/main.py`: the
`Depends(authenticate)` dependency runs first and a 401 aborts the request
before any handler body; otherwise the handler body runs. The second
component records which external collaborators the handler body invoked. -/
def handleApi {R Q : Type} (get_documents_by_role : String → List String)
    (load_vector_store : String → Except String R)
    (from_chain_type : R → Except String Q)
    (qa_run : Q → String → Except String String)
    (route : ApiRoute) (creds : Option HTTPBasicCredentials) :
    Except HTTPError ApiResponse × List ExtCall :=
  match resolveAuth creds with
  | Except.error e => (Except.error e, [])
  | Except.ok user =>
      match route with
      | ApiRoute.login =>
          (Except.ok (ApiResponse.loginResp ("Welcome " ++ user.username ++ "!") user.role), [])
      | ApiRoute.roleDocs =>
          (Except.ok (ApiResponse.docsResp (get_documents_by_role user.role)),
           [ExtCall.documentDirectory user.role])
      | ApiRoute.test =>
          (Except.ok (ApiResponse.testResp
              ("Hello " ++ user.username ++ "! You can now chat.") user.role), [])
      | ApiRoute.chat request =>
          ((chat_endpoint load_vector_store from_chain_type qa_run request user).map
              ApiResponse.chatResp,
           [ExtCall.answerGenerator user.role request.message])

/-- C5: whenever the pipeline invocation succeeds with generated text `t`, the
chat response is exactly `{user, role, query, response := t}`. -/
theorem chat_success_exact_response {R Q : Type}
    (load_vector_store : String → Except String R)
    (from_chain_type : R → Except String Q)
    (qa_run : Q → String → Except String String)
    (request : ChatRequest) (user : AuthIdentity) (t : String)
    (h : runChatPipeline load_vector_store from_chain_type qa_run
          user.role request.message = Except.ok t) :
    chat_endpoint load_vector_store from_chain_type qa_run request user =
      Except.ok { user := user.username, role := user.role,
                  query := request.message, response := t } := by
  unfold chat_endpoint
  rw [h]

/-- Witness for C5: a trivially succeeding pipeline echoing the query. -/
theorem chat_success_exact_response_witness :
    runChatPipeline (fun _ => Except.ok ()) (fun _ => Except.ok ())
        (fun _ m => Except.ok ("answer to " ++ m)) "engineering" "hello" =
      Except.ok "answer to hello" ∧
    chat_endpoint (fun _ => Except.ok ()) (fun _ => Except.ok ())
        (fun _ m => Except.ok ("answer to " ++ m))
        { message := "hello" } { username := "Tony", role := "engineering" } =
      Except.ok { user := "Tony", role := "engineering",
                  query := "hello", response := "answer to hello" } :=
  ⟨rfl,
   chat_success_exact_response (fun _ => Except.ok ()) (fun _ => Except.ok ())
     (fun _ m => Except.ok ("answer to " ++ m))
     { message := "hello" } { username := "Tony", role := "engineering" }
     "answer to hello" rfl⟩

/-- C2: for every authenticated chat request, when any of the three pipeline
steps fails with any error `e`, the handler responds 500 with the fixed body
"Chat failed. Please try again."; the response does not depend on `e`, so no
detail of the underlying error reaches the caller. -/
theorem chat_failure_masked_as_500 {R Q : Type}
    (get_documents_by_role : String → List String)
    (load_vector_store : String → Except String R)
    (from_chain_type : R → Except String Q)
    (qa_run : Q → String → Except String String)
    (creds : Option HTTPBasicCredentials) (user : AuthIdentity)
    (request : ChatRequest) (e : String)
    (hauth : resolveAuth creds = Except.ok user)
    (hfail : runChatPipeline load_vector_store from_chain_type qa_run
              user.role request.message = Except.error e) :
    (handleApi get_documents_by_role load_vector_store from_chain_type qa_run
        (ApiRoute.chat request) creds).1 =
      Except.error { status := 500, detail := "Chat failed. Please try again." } := by
  unfold handleApi
  rw [hauth]
  dsimp only
  unfold chat_endpoint
  rw [hfail]
  rfl

/-- Witness for C2: Tony's chat request against a pipeline whose vector store
lookup raises. -/
theorem chat_failure_masked_as_500_witness :
    resolveAuth (some { username := "Tony", password := "password123" }) =
      Except.ok { username := "Tony", role := "engineering" } ∧
    runChatPipeline (fun _ => (Except.error "boom" : Except String Unit))
        (fun _ => (Except.ok () : Except String Unit)) (fun _ _ => Except.ok "")
        "engineering" "hello" = Except.error "boom" ∧
    (handleApi (fun _ => []) (fun _ => (Except.error "boom" : Except String Unit))
        (fun _ => (Except.ok () : Except String Unit)) (fun _ _ => Except.ok "")
        (ApiRoute.chat { message := "hello" })
        (some { username := "Tony", password := "password123" })).1 =
      Except.error { status := 500, detail := "Chat failed. Please try again." } :=
  ⟨rfl, rfl,
   chat_failure_masked_as_500 (fun _ => []) (fun _ => Except.error "boom")
     (fun _ => Except.ok ()) (fun _ _ => Except.ok "")
     (some { username := "Tony", password := "password123" })
     { username := "Tony", role := "engineering" }
     { message := "hello" } "boom" rfl rfl⟩

/-- C3: an authenticated `GET /api/role-docs` returns exactly the Document
Directory result for the authenticated caller's role, invoking the directory
on that role only. -/
theorem role_docs_exactly_callers_role {R Q : Type}
    (get_documents_by_role : String → List String)
    (load_vector_store : String → Except String R)
    (from_chain_type : R → Except String Q)
    (qa_run : Q → String → Except String String)
    (c : HTTPBasicCredentials) (user : AuthIdentity)
    (hauth : authenticate c = Except.ok user) :
    handleApi get_documents_by_role load_vector_store from_chain_type qa_run
        ApiRoute.roleDocs (some c) =
      (Except.ok (ApiResponse.docsResp (get_documents_by_role user.role)),
       [ExtCall.documentDirectory user.role]) := by
  unfold handleApi resolveAuth
  dsimp only
  rw [hauth]

/-- Witness for C3: Sam (role "finance") receives the finance documents from a
directory that maps finance and marketing to different lists. -/
theorem role_docs_exactly_callers_role_witness :
    authenticate { username := "Sam", password := "financepass" } =
      Except.ok { username := "Sam", role := "finance" } ∧
    handleApi (fun r => if r = "finance" then ["fin-doc"] else ["other-doc"])
        (fun _ => (Except.ok () : Except String Unit))
        (fun _ => (Except.ok () : Except String Unit)) (fun _ _ => Except.ok "")
        ApiRoute.roleDocs (some { username := "Sam", password := "financepass" }) =
      (Except.ok (ApiResponse.docsResp ["fin-doc"]),
       [ExtCall.documentDirectory "finance"]) :=
  ⟨rfl,
   role_docs_exactly_callers_role
     (fun r => if r = "finance" then ["fin-doc"] else ["other-doc"])
     (fun _ => Except.ok ()) (fun _ => Except.ok ()) (fun _ _ => Except.ok "")
     { username := "Sam", password := "financepass" }
     { username := "Sam", role := "finance" } rfl⟩

/-- C6: when credentials are missing or invalid, every protected route returns
the 401 rejection produced by the dependency and the handler body never runs:
no external collaborator (Document Directory, Answer Generator) is invoked. -/
theorem auth_failure_blocks_route_logic {R Q : Type}
    (get_documents_by_role : String → List String)
    (load_vector_store : String → Except String R)
    (from_chain_type : R → Except String Q)
    (qa_run : Q → String → Except String String)
    (creds : Option HTTPBasicCredentials) (err : HTTPError)
    (h : resolveAuth creds = Except.error err) (route : ApiRoute) :
    handleApi get_documents_by_role load_vector_store from_chain_type qa_run
        route creds = (Except.error err, []) ∧ err.status = 401 := by
  constructor
  · unfold handleApi
    rw [h]
  · cases creds with
    | none =>
        unfold resolveAuth at h
        rw [(Except.error.inj h).symm]
    | some c =>
        unfold resolveAuth at h
        rw [authenticate_error_is_401 c err h]

/-- Witness for C6: a request with no Authorization header to `/api/role-docs`
is rejected 401 with the external-call log empty. -/
theorem auth_failure_blocks_route_logic_witness :
    resolveAuth none = Except.error { status := 401, detail := "Not authenticated" } ∧
    (handleApi (fun _ => ["doc"]) (fun _ => (Except.ok () : Except String Unit))
        (fun _ => (Except.ok () : Except String Unit)) (fun _ _ => Except.ok "")
        ApiRoute.roleDocs none =
      (Except.error { status := 401, detail := "Not authenticated" }, []) ∧
      ({ status := 401, detail := "Not authenticated" } : HTTPError).status = 401) :=
  ⟨rfl,
   auth_failure_blocks_route_logic (fun _ => ["doc"]) (fun _ => Except.ok ())
     (fun _ => Except.ok ()) (fun _ _ => Except.ok "") none
     { status := 401, detail := "Not authenticated" } rfl ApiRoute.roleDocs⟩

/-- C9: the role scoping retrieval and document listing is exactly
`users_db[username].role` for the authenticated username and depends on
nothing else: chat requests with arbitrary (and possibly different) bodies and
pipelines, and role-docs requests with an arbitrary directory, all record
external calls scoped to that one role. -/
theorem role_scope_depends_only_on_credentials {R Q : Type}
    (c : HTTPBasicCredentials) (u : UserRecord)
    (hu : usersDbGet c.username = some u) (hp : u.password = c.password)
    (gd gd2 : String → List String)
    (lvs lvs2 : String → Except String R)
    (fct fct2 : R → Except String Q)
    (qrun qrun2 : Q → String → Except String String)
    (m1 m2 : String) :
    ((handleApi gd lvs fct qrun (ApiRoute.chat { message := m1 }) (some c)).2.map callRole
        = [u.role]) ∧
    ((handleApi gd2 lvs2 fct2 qrun2 (ApiRoute.chat { message := m2 }) (some c)).2.map callRole
        = [u.role]) ∧
    ((handleApi gd lvs fct qrun ApiRoute.roleDocs (some c)).2.map callRole = [u.role]) := by
  have hok : authenticate c = Except.ok { username := c.username, role := u.role } :=
    authenticate_ok_of_valid c u hu hp
  refine ⟨?_, ?_, ?_⟩ <;>
    · unfold handleApi resolveAuth
      dsimp only
      rw [hok]
      rfl

/-- Witness for C9: two chat requests from Tony with different bodies and
different pipelines, plus a role-docs request, are all scoped to
"engineering". -/
theorem role_scope_depends_only_on_credentials_witness :
    (usersDbGet "Tony" = some { password := "password123", role := "engineering" }) ∧
    ((handleApi (fun _ => ["a"]) (fun _ => (Except.ok () : Except String Unit))
        (fun _ => (Except.ok () : Except String Unit)) (fun _ _ => Except.ok "x")
        (ApiRoute.chat { message := "first" })
        (some { username := "Tony", password := "password123" })).2.map callRole
      = ["engineering"]) ∧
    ((handleApi (fun _ => ["b"]) (fun _ => (Except.error "down" : Except String Unit))
        (fun _ => (Except.ok () : Except String Unit)) (fun _ _ => Except.ok "y")
        (ApiRoute.chat { message := "second" })
        (some { username := "Tony", password := "password123" })).2.map callRole
      = ["engineering"]) ∧
    ((handleApi (fun _ => ["a"]) (fun _ => (Except.ok () : Except String Unit))
        (fun _ => (Except.ok () : Except String Unit)) (fun _ _ => Except.ok "x")
        ApiRoute.roleDocs
        (some { username := "Tony", password := "password123" })).2.map callRole
      = ["engineering"]) :=
  ⟨by decide,
   (role_scope_depends_only_on_credentials
      { username := "Tony", password := "password123" }
      { password := "password123", role := "engineering" } (by decide) rfl
      (fun _ => ["a"]) (fun _ => ["b"])
      (fun _ => (Except.ok () : Except String Unit)) (fun _ => Except.error "down")
      (fun _ => Except.ok ()) (fun _ => Except.ok ())
      (fun _ _ => Except.ok "x") (fun _ _ => Except.ok "y")
      "first" "second")⟩

/-- A Boolean prefix test on strings, used by the route matcher. -/
def strStartsWith (pre s : String) : Bool :=
  pre.data.isPrefixOf s.data

/-- The route handlers registered on the FastAPI app, in source order. -/
inductive Handler
  | login
  | roleDocs
  | test
  | chat
  | staticFiles
  | serveReactIndex
  | serveReactRouter
  | readRoot
deriving DecidableEq, Repr

/-- Starlette first-match routing over the registration order of
`app/main.py`: the four `/api` routes, then the `/static` mount, then
`serve_react_index` on `/`, then the catch-all `serve_react_router` on
`/{full_path:path}` (which matches every request path), then the duplicate
`read_root` on `/`. Returns the handler that serves a request, or `none` when
no route matches. -/
def routeRequest (method path : String) : Option Handler :=
  if method = "GET" ∧ path = "/api/login" then some Handler.login
  else if method = "GET" ∧ path = "/api/role-docs" then some Handler.roleDocs
  else if method = "GET" ∧ path = "/api/test" then some Handler.test
  else if method = "POST" ∧ path = "/api/chat" then some Handler.chat
  else if path = "/static" ∨ strStartsWith "/static/" path = true then some Handler.staticFiles
  else if method = "GET" ∧ path = "/" then some Handler.serveReactIndex
  else if method = "GET" ∧ strStartsWith "/" path = true then some Handler.serveReactRouter
  else if method = "GET" ∧ path = "/" then some Handler.readRoot
  else none

/-- The fixed relative frontend build path of `app/main.py`:
`os.path.join(os.path.dirname(__file__), "..", "frontend", "build")`. -/
def BUILD_DIR : String := "app/../frontend/build"

/-- Python `os.path.join(BUILD_DIR, "static")`. -/
def STATIC_DIR : String := BUILD_DIR ++ "/static"

/-- Python `os.path.join(BUILD_DIR, "index.html")`, the frontend entry
document both fallback handlers serve. -/
def INDEX_HTML : String := BUILD_DIR ++ "/index.html"

/-- The file a handler serves via `FileResponse`, when it serves one:
`serve_react_index` and `serve_react_router` both serve
`BUILD_DIR/index.html`. -/
def servedFile : Handler → Option String
  | Handler.serveReactIndex => some INDEX_HTML
  | Handler.serveReactRouter => some INDEX_HTML
  | _ => none

/-- Whether a handler carries the `Depends(authenticate)` dependency in
`app/main.py`. -/
def authRequired : Handler → Bool
  | Handler.login => true
  | Handler.roleDocs => true
  | Handler.test => true
  | Handler.chat => true
  | _ => false

/-- C7: every GET path outside `/api/*` and `/static/*` is served the same
frontend entry document as `GET /`: both requests resolve to a handler whose
response is the file `BUILD_DIR/index.html`. -/
theorem frontend_fallback_same_content (p : String)
    (h0 : strStartsWith "/" p = true)
    (h1 : strStartsWith "/api/" p = false)
    (h2 : p ≠ "/static")
    (h3 : strStartsWith "/static/" p = false) :
    ∃ hi hp_ : Handler,
      routeRequest "GET" "/" = some hi ∧
      routeRequest "GET" p = some hp_ ∧
      servedFile hi = some INDEX_HTML ∧
      servedFile hp_ = servedFile hi := by
  have e1 : p ≠ "/api/login" := by
    intro he; rw [he] at h1; exact absurd h1 (by decide)
  have e2 : p ≠ "/api/role-docs" := by
    intro he; rw [he] at h1; exact absurd h1 (by decide)
  have e3 : p ≠ "/api/test" := by
    intro he; rw [he] at h1; exact absurd h1 (by decide)
  by_cases hr : p = "/"
  · refine ⟨Handler.serveReactIndex, Handler.serveReactIndex, by decide, ?_, rfl, rfl⟩
    rw [hr]
    decide
  · refine ⟨Handler.serveReactIndex, Handler.serveReactRouter, by decide, ?_, rfl, rfl⟩
    unfold routeRequest
    rw [if_neg (fun hc => e1 hc.2), if_neg (fun hc => e2 hc.2),
        if_neg (fun hc => e3 hc.2),
        if_neg (fun hc : ("GET" : String) = "POST" ∧ _ => absurd hc.1 (by decide)),
        if_neg ?_, if_neg (fun hc => hr hc.2), if_pos ⟨rfl, h0⟩]
    rintro (hc | hc)
    · exact h2 hc
    · rw [h3] at hc; cases hc

/-- Witness for C7: `GET /` and `GET /dashboard/settings` both serve
`index.html`. -/
theorem frontend_fallback_same_content_witness :
    (strStartsWith "/" "/dashboard/settings" = true ∧
     strStartsWith "/api/" "/dashboard/settings" = false ∧
     "/dashboard/settings" ≠ "/static" ∧
     strStartsWith "/static/" "/dashboard/settings" = false) ∧
    ∃ hi hp_ : Handler,
      routeRequest "GET" "/" = some hi ∧
      routeRequest "GET" "/dashboard/settings" = some hp_ ∧
      servedFile hi = some INDEX_HTML ∧
      servedFile hp_ = servedFile hi :=
  ⟨⟨by decide, by decide, by decide, by decide⟩,
   frontend_fallback_same_content "/dashboard/settings"
     (by decide) (by decide) (by decide) (by decide)⟩

/-- C10: a GET request whose path matches none of the explicitly defined GET
routes (the three `/api` GET routes, `/`, and the `/static` mount) — in
particular unknown paths under `/api/` — is handled by the catch-all
`serve_react_router`, which serves the frontend entry document and requires no
authentication. -/
theorem unknown_path_served_by_catchall (p : String)
    (h0 : strStartsWith "/" p = true)
    (e1 : p ≠ "/api/login") (e2 : p ≠ "/api/role-docs") (e3 : p ≠ "/api/test")
    (hr : p ≠ "/") (h2 : p ≠ "/static")
    (h3 : strStartsWith "/static/" p = false) :
    routeRequest "GET" p = some Handler.serveReactRouter ∧
    servedFile Handler.serveReactRouter = some INDEX_HTML ∧
    authRequired Handler.serveReactRouter = false := by
  refine ⟨?_, rfl, rfl⟩
  unfold routeRequest
  rw [if_neg (fun hc => e1 hc.2), if_neg (fun hc => e2 hc.2),
      if_neg (fun hc => e3 hc.2),
      if_neg (fun hc : ("GET" : String) = "POST" ∧ _ => absurd hc.1 (by decide)),
      if_neg ?_, if_neg (fun hc => hr hc.2), if_pos ⟨rfl, h0⟩]
  rintro (hc | hc)
  · exact h2 hc
  · rw [h3] at hc; cases hc

/-- Witness for C10: `GET /api/nonexistent` falls through to the catch-all and
gets `index.html` with no authentication. -/
theorem unknown_path_served_by_catchall_witness :
    (strStartsWith "/" "/api/nonexistent" = true ∧
     "/api/nonexistent" ≠ "/api/login" ∧ "/api/nonexistent" ≠ "/api/role-docs" ∧
     "/api/nonexistent" ≠ "/api/test" ∧ "/api/nonexistent" ≠ "/" ∧
     "/api/nonexistent" ≠ "/static" ∧
     strStartsWith "/static/" "/api/nonexistent" = false) ∧
    (routeRequest "GET" "/api/nonexistent" = some Handler.serveReactRouter ∧
     servedFile Handler.serveReactRouter = some INDEX_HTML ∧
     authRequired Handler.serveReactRouter = false) :=
  ⟨⟨by decide, by decide, by decide, by decide, by decide, by decide, by decide⟩,
   unknown_path_served_by_catchall "/api/nonexistent"
     (by decide) (by decide) (by decide) (by decide) (by decide) (by decide) (by decide)⟩

/-- The module-level startup of `app/main.py`: before any route can serve, it
checks once that `STATIC_DIR` exists and raises
`RuntimeError(f"React build not found at: {STATIC_DIR}")` when it does not;
only a successful startup yields the routing table that serves requests.
`path_exists` abstracts `os.path.exists`. -/
def startApp (path_exists : String → Bool) :
    Except String (String → String → Option Handler) :=
  if path_exists STATIC_DIR = false then
    Except.error ("React build not found at: " ++ STATIC_DIR)
  else
    Except.ok routeRequest

/-- C8: when the frontend build directory is absent at its fixed relative
path, startup aborts with the fatal RuntimeError and no routing table is ever
produced, so no request is served; the check runs only at startup and nothing
at request time can recover from it. -/
theorem startup_aborts_without_build (path_exists : String → Bool)
    (h : path_exists STATIC_DIR = false) :
    startApp path_exists = Except.error ("React build not found at: " ++ STATIC_DIR) := by
  unfold startApp
  rw [if_pos h]

/-- Witness for C8: a filesystem with no paths at all makes startup abort. -/
theorem startup_aborts_without_build_witness :
    ((fun _ : String => false) STATIC_DIR = false) ∧
    startApp (fun _ => false) =
      Except.error ("React build not found at: " ++ STATIC_DIR) :=
  ⟨rfl, startup_aborts_without_build (fun _ => false) rfl⟩

end RpcApp
